import Mathlib

/-!
Verification of the KJV note-generation tagging engine.

The Python source (src/generate-notes.py) is shallowly embedded here.
Verse text is modelled as a list of characters; Python string operations
are modelled on ASCII text: str.strip and str.split use the whitespace
predicate Char.isWhitespace, str.lower maps Char.toLower over the
characters, the in operator on strings is substring containment, and
str.startswith is prefix testing.  Python sets of keywords are modelled
as lists of strings (the taggers only use membership, via any(...), so
duplication and order in the lists are irrelevant); the set union
operator is modelled as list append.  Tags are plain strings, as in the
source.  A Python dict built from distinct keys is modelled as an
association list.  A function that can raise (get_book_ordinal) returns
an Option, with none for the raising path.
-/

set_option linter.unusedVariables false

namespace KJVNotes

/-- Model of Python str.strip: drop whitespace from both ends. -/
def strip (l : List Char) : List Char :=
  ((l.dropWhile Char.isWhitespace).reverse.dropWhile Char.isWhitespace).reverse

/-- Model of Python str.lower on ASCII text. -/
def lower (l : List Char) : List Char := l.map Char.toLower

/-- Substring containment over character lists: needle occurs contiguously in hay. -/
def containsSub (needle : List Char) : List Char → Bool
  | [] => needle.isEmpty
  | c :: rest => needle.isPrefixOf (c :: rest) || containsSub needle rest

/-- Model of the Python expression w in tl for a keyword w and lowered text tl. -/
def substrIn (w : String) (tl : List Char) : Bool := containsSub w.data tl

/-- Model of the Python expression any(w in tl for w in ws). -/
def anyIn (ws : List String) (tl : List Char) : Bool := ws.any (fun w => substrIn w tl)

/-- Model of the Python expression any(tl.startswith(p) for p in ws). -/
def anyStarts (ws : List String) (tl : List Char) : Bool :=
  ws.any (fun w => w.data.isPrefixOf tl)

/-- Model of Python t.endswith(c) for a single character c. -/
def endsWithChar (t : List Char) (c : Char) : Bool := t.getLast? == some c

/-- Model of words[0] if words else "" where words = tl.split():
the first maximal whitespace-free run of tl, empty when tl is all whitespace. -/
def firstWord (tl : List Char) : List Char :=
  (tl.dropWhile Char.isWhitespace).takeWhile (fun c => !c.isWhitespace)

/-- Model of the Python membership test first in ws for a set of words ws. -/
def wordIn (w : List Char) (ws : List String) : Bool := ws.any (fun s => s.data == w)

/-! Canon and mappings -/

def BOOKS_IN_ORDER : List String := [
 "Genesis", "Exodus", "Leviticus", "Numbers", "Deuteronomy",
 "Joshua", "Judges", "Ruth", "1 Samuel", "2 Samuel", "1 Kings", "2 Kings",
 "1 Chronicles", "2 Chronicles", "Ezra", "Nehemiah", "Esther",
 "Job", "Psalms", "Proverbs", "Ecclesiastes", "Song of Solomon",
 "Isaiah", "Jeremiah", "Lamentations", "Ezekiel", "Daniel",
 "Hosea", "Joel", "Amos", "Obadiah", "Jonah", "Micah", "Nahum", "Habakkuk",
 "Zephaniah", "Haggai", "Zechariah", "Malachi",
 "Matthew", "Mark", "Luke", "John", "Acts", "Romans", "1 Corinthians", "2 Corinthians",
 "Galatians", "Ephesians", "Philippians", "Colossians", "1 Thessalonians", "2 Thessalonians",
 "1 Timothy", "2 Timothy", "Titus", "Philemon", "Hebrews", "James", "1 Peter", "2 Peter",
 "1 John", "2 John", "3 John", "Jude", "Revelation"]

/-- Model of BOOK_TO_ORD = dict with b mapped to i+1 for i, b in enumerate(BOOKS_IN_ORDER):
since the books are distinct, the dict sends each book to its index plus one. -/
def BOOK_TO_ORD (b : String) : Option Nat :=
  if b ∈ BOOKS_IN_ORDER then some (BOOKS_IN_ORDER.indexOf b + 1) else none

def BOOK_NAME_FIX : List (String × String) := [
  ("1Samuel", "1 Samuel"), ("2Samuel", "2 Samuel"),
  ("1Kings", "1 Kings"), ("2Kings", "2 Kings"),
  ("1Chronicles", "1 Chronicles"), ("2Chronicles", "2 Chronicles"),
  ("1Corinthians", "1 Corinthians"), ("2Corinthians", "2 Corinthians"),
  ("1Thessalonians", "1 Thessalonians"), ("2Thessalonians", "2 Thessalonians"),
  ("1Timothy", "1 Timothy"), ("2Timothy", "2 Timothy"),
  ("1Peter", "1 Peter"), ("2Peter", "2 Peter"),
  ("1John", "1 John"), ("2John", "2 John"), ("3John", "3 John"),
  ("SongofSolomon", "Song of Solomon"), ("SongofSongs", "Song of Solomon"),
  ("Canticles", "Song of Solomon")]

def stripStr (s : String) : String := String.mk (strip s.data)

/-- Model of fix_book_name: strip the raw name, then apply the alias table,
returning the stripped name itself when it is not an alias key. -/
def fix_book_name (raw : String) : String :=
  ((BOOK_NAME_FIX.lookup (stripStr raw)).getD (stripStr raw))

/-- Model of get_book_ordinal: ordinal for canonical books, none models the
ValueError raised for unknown names. -/
def get_book_ordinal (book : String) : Option Nat := BOOK_TO_ORD book

/-! Theme dictionaries (all lowercase), copied from the source -/

def NAMES_OF_GOD : List String := [
  "jehovah", "yahweh", "yhwh", "lord", "god", "el", "eloah", "elohim", "adonai",
  "most high", "almighty",
  "jehovah-jireh", "jehovah jireh", "yahweh-yireh", "yahweh yireh",
  "jehovah-rapha", "jehovah rapha", "yahweh-rapha", "yahweh rapha",
  "jehovah-nissi", "jehovah nissi", "yahweh-nissi", "yahweh nissi",
  "jehovah-shalom", "jehovah shalom", "yahweh-shalom", "yahweh shalom",
  "jehovah-raah", "jehovah raah", "yahweh-raah", "yahweh raah",
  "jehovah-tsidkenu", "jehovah tsidkenu", "yahweh-tsidqenu", "yahweh tsidqenu",
  "jehovah-shammah", "jehovah shammah", "yahweh-shammah", "yahweh shammah",
  "lord of hosts", "king of kings", "lord of lords", "ancient of days",
  "the rock", "i am", "i am that i am"]

def PHYSICAL_WARFARE : List String := [
  " war ", " war.", ", war", "war, ", "battle", "battles", "fight", "fought",
  "fighting", "army", "armies", "hosts",
  "chariot", "chariots", "spear", "spears", "sword", "swords", "shield", "shields",
  "captains", "horse", "horses", "siege", "besieged", "slain", "smote", "smite",
  "smitten", "kill", "killed"]

def SPIRITUAL_WARFARE : List String := [
  "armor of god", "whole armour of god", "devil", "devils", "satan", "tempter",
  "temptation", "stronghold", "strongholds",
  "principalities", "powers", "rulers of the darkness", "spiritual wickedness",
  "fiery darts", "resist", "deliver us from evil"]

def ONE_ANOTHER_PHRASES : List String := [
  "one another", "each other", "one to another", "one toward another",
  "members one of another"]

def JESUS_TITLES : List String := [
  "jesus", "jesus christ", "christ jesus", "the christ", "christ", "messiah",
  "immanuel", "emmanuel", "rabbi", "teacher"]

def JESUS_SON_OF_GOD : List String := ["son of god", "only begotten son"]

def JESUS_SON_OF_MAN : List String := ["son of man"]

def JESUS_LORD_PHRASES : List String := ["lord jesus", "our lord jesus", "lord jesus christ"]

def JESUS_LAMB_WORD : List String := ["lamb of god"]

def THANKSGIVING_WORDS : List String := [
  "give thanks", "thanksgiving", "thanks be", "thank", "thanked", "thankful"]

def PRAISE_WORDS : List String := [
  "praise", "praised", "praiseth", "sing", "sang", "sung", "worship",
  "bless the lord", "bless the name"]

def LAMENT_WORDS : List String := [
  "woe", "lament", "tears", "mourn", "mourning", "cry", "cried", "crying"]

def COVENANT_WORDS : List String := [
  "covenant", "everlasting covenant", "my covenant", "new covenant"]

def BENEDICTION_WORDS : List String := [
  "blessed is", "blessed be", "peace be", "the lord bless thee",
  "the lord make his face shine", "the lord lift up"]

def NEG_COMMAND_PATTERNS : List String := ["do not", "be not", "let not", "thou shalt not"]

def POS_COMMAND_PATTERNS : List String := ["thou shalt", "ye shall", "you shall"]

def ADVERSARY_TITLES : List String := [
  "satan", "devil", "lucifer", "beelzebub", "belial", "antichrist",
  "the wicked one", "the evil one", "the adversary"]

def ADVERSARY_EPITHETS : List String := [
  "accuser", "tempter", "destroyer", "deceiver", "father of lies",
  "murderer from the beginning",
  "prince of this world", "prince of the power of the air", "god of this world",
  "that wicked", "man of sin", "son of perdition", "mystery of iniquity"]

def ADVERSARY_METAPHORS : List String := [
  "serpent", "that old serpent", "dragon", "red dragon", "roaring lion",
  "leviathan", "angel of light"]

def ADVERSARY_NAMED_ENTITIES : List String := ["abaddon", "apollyon", "legion"]

def DEMONIC_ENTITIES : List String := [
  "devils", "unclean spirit", "unclean spirits", "evil spirit", "evil spirits",
  "familiar spirit", "familiar spirits"]

def DEMONIC_PHRASES : List String := [
  "works of the devil", "synagogue of satan", "power of darkness",
  "rulers of the darkness", "doctrines of devils", "possessed with a devil",
  "cast out devils"]

/-- Union of the six adversary and demonic keyword sets, as in the source. -/
def LUCIFER_WORDS : List String :=
  ADVERSARY_TITLES ++ ADVERSARY_EPITHETS ++ ADVERSARY_METAPHORS ++
  ADVERSARY_NAMED_ENTITIES ++ DEMONIC_ENTITIES ++ DEMONIC_PHRASES

def TIME_ESCHATOLOGY : List String := [
  "in the last days", "the last days", "the latter days", "in that day", "in those days",
  "day of the lord", "the time of the end", "the end of days", "time appointed",
  "times and seasons",
  "a time times and an half", "forty and two months",
  "one thousand two hundred and threescore days",
  "shortly come to pass", "the time is at hand", "he that shall come will come",
  "from everlasting to everlasting", "for ever and ever", "the fullness of time"]

def TIME_UNITS : List String := [
  "day", "days", "month", "months", "year", "years", "week", "weeks",
  "sabbath", "sabbaths", "jubilee"]

def TIME_PARTS_OF_DAY : List String := [
  "morning", "noon", "evening", "night", "midnight", "dawning of the day",
  "break of day",
  "the third hour", "the sixth hour", "the ninth hour", "the eleventh hour",
  "watch of the night", "first watch", "second watch", "third watch", "fourth watch"]

def TIME_SEASONS : List String := [
  "winter", "summer", "harvest", "seedtime", "cold and heat",
  "former rain", "latter rain", "early rain", "time of the latter rain"]

def TIME_FEASTS : List String := [
  "passover", "feast of unleavened bread", "pentecost", "feast of weeks",
  "feast of trumpets",
  "day of atonement", "feast of tabernacles", "feast of booths", "new moon",
  "new moons", "sabbath day"]

def TIME_PERIOD_PHRASES : List String := [
  "at that time", "at the time appointed", "at the end of", "in process of time",
  "after many days", "after these things", "before these days", "from that day forward",
  "hereafter", "henceforth", "from this time forth", "till the day", "until the time",
  "until the day",
  "for a season", "for a time", "for a long time", "for a little while",
  "not many days hence",
  "yet a little while", "a little season"]

/-- The live TIME_MARKERS definition: the union of the six time subcategory sets.
The source first assigns a small ad hoc set to TIME_MARKERS and later reassigns
it to this union; only the final assignment is ever read, so only it is modelled. -/
def TIME_MARKERS : List String :=
  TIME_ESCHATOLOGY ++ TIME_UNITS ++ TIME_PARTS_OF_DAY ++
  TIME_SEASONS ++ TIME_FEASTS ++ TIME_PERIOD_PHRASES

/-! Utilities -/

/-- Characters matched by the WORD_TOKEN regex class: ASCII letters, digits
and the apostrophe (code 39). -/
def isWordChar (c : Char) : Bool := c.isAlpha || c.isDigit || c.toNat == 39

/-- Recursion core of the findall model; the fuel argument only bounds the
recursion depth (one unit of fuel is spent per character consumed), so any
fuel at least the length of the text gives the same answer. -/
def wordTokensGo : Nat → List Char → List (List Char)
  | 0, _ => []
  | _ + 1, [] => []
  | fuel + 1, c :: rest =>
    if isWordChar c then
      (c :: rest.takeWhile isWordChar) :: wordTokensGo fuel (rest.dropWhile isWordChar)
    else
      wordTokensGo fuel rest

/-- Model of WORD_TOKEN.findall: the maximal runs of word characters, in order. -/
def wordTokens (l : List Char) : List (List Char) := wordTokensGo l.length l

def word_count (text : List Char) : Nat := (wordTokens text).length

/-- Recursive form of the dedup loop: seen collects the labels already emitted. -/
def dedupAux : List String → List String → List String
  | [], _ => []
  | s :: rest, seen =>
    if s ∈ seen then dedupAux rest seen else s :: dedupAux rest (s :: seen)

def dedup_preserve (seq : List String) : List String := dedupAux seq []

/-! Tagging -/

/-- One conditional append in a tagger body: the listed tags when the
condition holds, nothing otherwise. -/
def tagIf (b : Bool) (ts : List String) : List String := if b then ts else []

def CONTRAST_OPENERS : List String :=
  ["but", "however", "yet", "nevertheless", "though", "still", "rather"]

def INFERENCE_OPENERS : List String := ["therefore", "wherefore", "so", "then"]

def CONJUNCTIVE_OPENERS : List String := ["and"]

/-- The composite conditional flag of detect_grammar_tags, a disjunction of the
four groups of cues that each set conditional = True. -/
def conditionalFlag (t tl : List Char) : Bool :=
  substrIn "if" tl ||
  anyIn ["unless", "except", "provided that", "in case", "whether", "lest", "though"] tl ||
  anyIn ["what if", "think ye", "think you", "shall we", "should we", "would we",
         "would you", "could we", "suppose"] tl ||
  (endsWithChar t '?' && anyIn ["think", "suppose", "consider", "reckon"] tl)

/-- The tag list built by detect_grammar_tags before deduplication, as a
function of the stripped text t. -/
def rawGrammarTags (t : List Char) : List String :=
  let tl := lower t
  let first := firstWord tl
  tagIf (endsWithChar t '?') ["question"] ++
  tagIf (endsWithChar t '!') ["exclamation"] ++
  tagIf (anyIn ["\"", "“", "”", "‘", "’"] t) ["dialogue"] ++
  tagIf (decide (2 ≤ t.count ';')) ["semicolon-heavy"] ++
  tagIf (wordIn first CONTRAST_OPENERS) ["contrast-opener"] ++
  tagIf (wordIn first INFERENCE_OPENERS) ["inference-opener"] ++
  tagIf (wordIn first CONJUNCTIVE_OPENERS) ["conjunctive-opener"] ++
  tagIf (anyIn [" not ", "neither", " nor ", "without", " no ", " never "] tl) ["negation"] ++
  tagIf (anyIn [" but ", " but,", "but, ", "yet", "however", "nevertheless", "though"] tl)
        ["contrast"] ++
  tagIf (conditionalFlag t tl) ["conditional"] ++
  tagIf (anyIn ["therefore", "for this cause", "so that"] tl) ["cause-effect"] ++
  tagIf (anyIn ["grace be unto you", "grace be to you", "grace and peace", " amen"] tl)
        ["greeting/closing"] ++
  tagIf (substrIn "begat" tl || substrIn "son of" tl || substrIn "daughter of" tl)
        ["genealogy-structure"]

/-- Model of detect_grammar_tags: the book argument is accepted and unused,
as in the source. -/
def detect_grammar_tags (text book : List Char) : List String :=
  dedup_preserve (rawGrammarTags (strip text))

/-- The tag list built by detect_thematic_tags before deduplication, as a
function of the stripped lowered text tl. -/
def rawThematicTags (tl : List Char) : List String :=
  tagIf (anyIn NAMES_OF_GOD tl) ["names-of-god"] ++
  tagIf (anyIn PHYSICAL_WARFARE tl) ["warfare"] ++
  tagIf (anyIn SPIRITUAL_WARFARE tl) ["warfare"] ++
  tagIf (anyIn ONE_ANOTHER_PHRASES tl) ["one-another"] ++
  tagIf (anyIn JESUS_LORD_PHRASES tl || substrIn "jesus" tl) ["jesus"] ++
  tagIf (anyIn JESUS_TITLES tl) ["jesus-title", "jesus"] ++
  tagIf (anyIn JESUS_SON_OF_GOD tl) ["son-of-god", "jesus"] ++
  tagIf (anyIn JESUS_SON_OF_MAN tl) ["son-of-man", "jesus"] ++
  tagIf (anyIn JESUS_LAMB_WORD tl) ["lamb-of-god", "jesus"] ++
  tagIf (anyIn ADVERSARY_TITLES tl) ["adversary-title"] ++
  tagIf (anyIn ADVERSARY_EPITHETS tl) ["adversary-epithet"] ++
  tagIf (anyIn ADVERSARY_METAPHORS tl) ["adversary-metaphor"] ++
  tagIf (anyIn ADVERSARY_NAMED_ENTITIES tl) ["adversary-named"] ++
  tagIf (anyIn DEMONIC_ENTITIES tl) ["demonic-entities"] ++
  tagIf (anyIn DEMONIC_PHRASES tl) ["demonic-phrases"] ++
  tagIf (anyIn LUCIFER_WORDS tl) ["adversary"] ++
  tagIf (anyIn THANKSGIVING_WORDS tl) ["thanksgiving"] ++
  tagIf (anyIn PRAISE_WORDS tl) ["praise-worship"] ++
  tagIf (anyIn LAMENT_WORDS tl) ["lament"] ++
  tagIf (anyIn COVENANT_WORDS tl) ["covenant"] ++
  tagIf (anyIn BENEDICTION_WORDS tl) ["benediction"] ++
  (if anyStarts NEG_COMMAND_PATTERNS tl then ["negative-command"]
   else if anyStarts POS_COMMAND_PATTERNS tl then ["positive-command"]
   else []) ++
  tagIf (anyIn TIME_ESCHATOLOGY tl) ["time-eschatology"] ++
  tagIf (anyIn TIME_UNITS tl) ["time-units"] ++
  tagIf (anyIn TIME_PARTS_OF_DAY tl) ["time-parts-of-day"] ++
  tagIf (anyIn TIME_SEASONS tl) ["time-seasons"] ++
  tagIf (anyIn TIME_FEASTS tl) ["time-feasts"] ++
  tagIf (anyIn TIME_PERIOD_PHRASES tl) ["time-period"] ++
  tagIf (anyIn TIME_MARKERS tl) ["time"]

/-- Model of detect_thematic_tags: the book argument is accepted and unused,
as in the source. -/
def detect_thematic_tags (text book : List Char) : List String :=
  dedup_preserve (rawThematicTags (lower (strip text)))

example : detect_thematic_tags ("Jesus wept.".data) [] = ["jesus", "jesus-title"] := by decide

example : detect_grammar_tags ("But the LORD is faithful.".data) [] = ["contrast-opener"] := by
  decide

example : word_count ("In the beginning God created the heaven and the earth.".data) = 10 := by
  decide

/-! Lemmas about deduplication -/

lemma mem_dedupAux (a : String) :
    ∀ (l seen : List String), a ∈ dedupAux l seen ↔ a ∈ l ∧ a ∉ seen := by
  intro l
  induction l with
  | nil => intro seen; simp [dedupAux]
  | cons s rest ih =>
    intro seen
    by_cases hs : s ∈ seen
    · simp only [dedupAux, if_pos hs, ih, List.mem_cons]
      constructor
      · rintro ⟨hr, hn⟩; exact ⟨Or.inr hr, hn⟩
      · rintro ⟨hor, hn⟩
        rcases hor with heq | hr
        · exact absurd (heq ▸ hs) hn
        · exact ⟨hr, hn⟩
    · simp only [dedupAux, if_neg hs, List.mem_cons, ih]
      constructor
      · rintro (heq | ⟨hr, hn⟩)
        · exact ⟨Or.inl heq, heq ▸ hs⟩
        · exact ⟨Or.inr hr, fun hm => hn (Or.inr hm)⟩
      · rintro ⟨heq | hr, hn⟩
        · exact Or.inl heq
        · by_cases has : a = s
          · exact Or.inl has
          · exact Or.inr ⟨hr, by simp [List.mem_cons, has, hn]⟩

lemma mem_dedup_preserve (a : String) (l : List String) :
    a ∈ dedup_preserve l ↔ a ∈ l := by
  simp [dedup_preserve, mem_dedupAux]

lemma nodup_dedupAux : ∀ (l seen : List String), (dedupAux l seen).Nodup := by
  intro l
  induction l with
  | nil => intro seen; simp [dedupAux]
  | cons s rest ih =>
    intro seen
    by_cases hs : s ∈ seen
    · simpa [dedupAux, if_pos hs] using ih seen
    · simp only [dedupAux, if_neg hs, List.nodup_cons]
      refine ⟨fun hm => ?_, ih _⟩
      rcases (mem_dedupAux s rest (s :: seen)).mp hm with ⟨_, hns⟩
      exact hns (List.mem_cons_self _ _)

lemma dedupAux_eq_self :
    ∀ (l seen : List String), l.Nodup → (∀ a ∈ l, a ∉ seen) → dedupAux l seen = l := by
  intro l
  induction l with
  | nil => intro seen _ _; rfl
  | cons s rest ih =>
    intro seen hnd hdisj
    have hs : s ∉ seen := hdisj s (List.mem_cons_self _ _)
    rw [dedupAux, if_neg hs]
    congr 1
    refine ih (s :: seen) (List.Nodup.of_cons hnd) ?_
    intro a ha
    simp only [List.mem_cons, not_or]
    exact ⟨fun heq => (List.nodup_cons.mp hnd).1 (heq ▸ ha), hdisj a (List.mem_cons_of_mem _ ha)⟩

/-- Specification reading of dedup_preserve: keep the head at its first
position and remove all later occurrences of it, recursively. -/
def firstOccurrences : List String → List String
  | [] => []
  | a :: rest => a :: firstOccurrences (rest.filter (fun x => decide (x ≠ a)))
termination_by l => l.length
decreasing_by
exact Nat.lt_succ_of_le ((List.filter_sublist _).length_le)

lemma dedupAux_eq_firstOccurrences :
    ∀ (l seen : List String),
      dedupAux l seen = firstOccurrences (l.filter (fun x => decide (x ∉ seen))) := by
  intro l
  induction l with
  | nil => intro seen; simp [dedupAux, firstOccurrences]
  | cons s rest ih =>
    intro seen
    by_cases hs : s ∈ seen
    · rw [dedupAux, if_pos hs, List.filter_cons_of_neg (by simp [hs]), ih]
    · rw [dedupAux, if_neg hs, List.filter_cons_of_pos (by simp [hs]), firstOccurrences,
        ih (s :: seen), List.filter_filter]
      have hpt : List.filter (fun x => decide (x ∉ s :: seen)) rest =
          List.filter (fun x => decide (x ≠ s) && decide (x ∉ seen)) rest := by
        apply List.filter_congr
        intro x _
        simp [List.mem_cons, not_or]
      rw [hpt]

/-! Lemmas about word counting -/

lemma dropWhile_length_le (p : Char → Bool) (l : List Char) :
    (l.dropWhile p).length ≤ l.length := by
  induction l with
  | nil => simp [List.dropWhile]
  | cons c r ih =>
    by_cases h : p c
    · simp [List.dropWhile_cons, h]
      omega
    · simp [List.dropWhile_cons, h]

/-- Specification reading of word counting: the number of positions where a
maximal run of word characters begins, that is, positions holding a word
character whose predecessor (tracked by the prev flag) is not one. -/
def runStarts : Bool → List Char → Nat
  | _, [] => 0
  | prev, c :: rest => (if isWordChar c && !prev then 1 else 0) + runStarts (isWordChar c) rest

lemma runStarts_true (l : List Char) :
    runStarts true l = runStarts false (l.dropWhile isWordChar) := by
  induction l with
  | nil => simp [runStarts, List.dropWhile]
  | cons c r ih =>
    by_cases hc : isWordChar c
    · simp [runStarts, hc, List.dropWhile_cons, ih]
    · simp [runStarts, hc, List.dropWhile_cons]

lemma wordTokensGo_length :
    ∀ (fuel : Nat) (l : List Char), l.length ≤ fuel →
      (wordTokensGo fuel l).length = runStarts false l := by
  intro fuel
  induction fuel with
  | zero =>
    intro l hl
    have : l = [] := List.length_eq_zero.mp (Nat.le_zero.mp hl)
    subst this
    simp [wordTokensGo, runStarts]
  | succ n ih =>
    intro l hl
    cases l with
    | nil => simp [wordTokensGo, runStarts]
    | cons c rest =>
      have hrest : rest.length ≤ n := Nat.succ_le_succ_iff.mp (by simpa using hl)
      by_cases hc : isWordChar c
      · simp only [wordTokensGo, if_pos hc, List.length_cons]
        rw [ih _ (le_trans (dropWhile_length_le _ _) hrest), ← runStarts_true]
        simp [runStarts, hc]
        omega
      · simp only [wordTokensGo, if_neg hc]
        rw [ih rest hrest]
        simp [runStarts, hc]

/-! Lemmas about the conditional tag segments -/

lemma mem_tagIf {a : String} {b : Bool} {ts : List String} :
    a ∈ tagIf b ts ↔ b = true ∧ a ∈ ts := by
  cases b <;> simp [tagIf]

lemma negCmd_mem_raw (tl : List Char) :
    "negative-command" ∈ rawThematicTags tl ↔ anyStarts NEG_COMMAND_PATTERNS tl = true := by
  simp only [rawThematicTags, List.mem_append, mem_tagIf, List.mem_cons, List.mem_singleton,
    List.not_mem_nil]
  cases hneg : anyStarts NEG_COMMAND_PATTERNS tl <;>
    cases hpos : anyStarts POS_COMMAND_PATTERNS tl <;> simp

lemma posCmd_mem_raw (tl : List Char) :
    "positive-command" ∈ rawThematicTags tl ↔
      (anyStarts NEG_COMMAND_PATTERNS tl = false ∧
       anyStarts POS_COMMAND_PATTERNS tl = true) := by
  simp only [rawThematicTags, List.mem_append, mem_tagIf, List.mem_cons, List.mem_singleton,
    List.not_mem_nil]
  cases hneg : anyStarts NEG_COMMAND_PATTERNS tl <;>
    cases hpos : anyStarts POS_COMMAND_PATTERNS tl <;> simp

lemma timeTag_mem_raw (tl : List Char) :
    "time" ∈ rawThematicTags tl ↔ anyIn TIME_MARKERS tl = true := by
  simp only [rawThematicTags, List.mem_append, mem_tagIf, List.mem_cons, List.mem_singleton,
    List.not_mem_nil]
  cases hneg : anyStarts NEG_COMMAND_PATTERNS tl <;>
    cases hpos : anyStarts POS_COMMAND_PATTERNS tl <;> simp

lemma timeEsch_mem_raw (tl : List Char) :
    "time-eschatology" ∈ rawThematicTags tl ↔ anyIn TIME_ESCHATOLOGY tl = true := by
  simp only [rawThematicTags, List.mem_append, mem_tagIf, List.mem_cons, List.mem_singleton,
    List.not_mem_nil]
  cases hneg : anyStarts NEG_COMMAND_PATTERNS tl <;>
    cases hpos : anyStarts POS_COMMAND_PATTERNS tl <;> simp

lemma timeUnits_mem_raw (tl : List Char) :
    "time-units" ∈ rawThematicTags tl ↔ anyIn TIME_UNITS tl = true := by
  simp only [rawThematicTags, List.mem_append, mem_tagIf, List.mem_cons, List.mem_singleton,
    List.not_mem_nil]
  cases hneg : anyStarts NEG_COMMAND_PATTERNS tl <;>
    cases hpos : anyStarts POS_COMMAND_PATTERNS tl <;> simp

lemma timePartsOfDay_mem_raw (tl : List Char) :
    "time-parts-of-day" ∈ rawThematicTags tl ↔ anyIn TIME_PARTS_OF_DAY tl = true := by
  simp only [rawThematicTags, List.mem_append, mem_tagIf, List.mem_cons, List.mem_singleton,
    List.not_mem_nil]
  cases hneg : anyStarts NEG_COMMAND_PATTERNS tl <;>
    cases hpos : anyStarts POS_COMMAND_PATTERNS tl <;> simp

lemma timeSeasons_mem_raw (tl : List Char) :
    "time-seasons" ∈ rawThematicTags tl ↔ anyIn TIME_SEASONS tl = true := by
  simp only [rawThematicTags, List.mem_append, mem_tagIf, List.mem_cons, List.mem_singleton,
    List.not_mem_nil]
  cases hneg : anyStarts NEG_COMMAND_PATTERNS tl <;>
    cases hpos : anyStarts POS_COMMAND_PATTERNS tl <;> simp

lemma timeFeasts_mem_raw (tl : List Char) :
    "time-feasts" ∈ rawThematicTags tl ↔ anyIn TIME_FEASTS tl = true := by
  simp only [rawThematicTags, List.mem_append, mem_tagIf, List.mem_cons, List.mem_singleton,
    List.not_mem_nil]
  cases hneg : anyStarts NEG_COMMAND_PATTERNS tl <;>
    cases hpos : anyStarts POS_COMMAND_PATTERNS tl <;> simp

lemma timePeriod_mem_raw (tl : List Char) :
    "time-period" ∈ rawThematicTags tl ↔ anyIn TIME_PERIOD_PHRASES tl = true := by
  simp only [rawThematicTags, List.mem_append, mem_tagIf, List.mem_cons, List.mem_singleton,
    List.not_mem_nil]
  cases hneg : anyStarts NEG_COMMAND_PATTERNS tl <;>
    cases hpos : anyStarts POS_COMMAND_PATTERNS tl <;> simp

/-! Claim theorems -/

/-- Claim C1, counterexample: the claim says the thematic tags of the text
"Jesus wept." do not contain "jesus-title", but they do: the JESUS_TITLES
set contains the bare keyword "jesus", which occurs in the lowered text, so
the title rule fires. -/
theorem jesus_wept_title_counterexample :
    "jesus-title" ∈ detect_thematic_tags ("Jesus wept.".data) ("John".data) := by
  decide

/-- Claim C1, amended: for the text "Jesus wept." the thematic tag list is
exactly ["jesus", "jesus-title"]; in particular it contains "jesus" and,
contrary to the original claim, also contains "jesus-title". -/
theorem jesus_wept_tags :
    ∀ book : List Char,
      detect_thematic_tags ("Jesus wept.".data) book = ["jesus", "jesus-title"] := by
  intro book
  show dedup_preserve (rawThematicTags (lower (strip ("Jesus wept.".data)))) = _
  decide

/-- Claim C2, counterexample: the claim says the grammar tags of the text
"But the LORD is faithful." contain "contrast", but they do not: the
contrast markers are " but ", " but,", "but, ", "yet", "however",
"nevertheless" and "though", and none of them occurs in the lowered text,
whose leading "but" has neither a space before it nor a comma after it. -/
theorem but_lord_contrast_counterexample :
    "contrast" ∉ detect_grammar_tags ("But the LORD is faithful.".data) ("2 Timothy".data) := by
  decide

/-- Claim C2, amended: for the text "But the LORD is faithful." the grammar
tag list is exactly ["contrast-opener"], so it contains "contrast-opener"
but, contrary to the original claim, not "contrast"; the thematic tags do
contain "names-of-god". -/
theorem but_lord_tags :
    ∀ book : List Char,
      detect_grammar_tags ("But the LORD is faithful.".data) book = ["contrast-opener"] ∧
      "names-of-god" ∈ detect_thematic_tags ("But the LORD is faithful.".data) book := by
  intro book
  constructor
  · show dedup_preserve (rawGrammarTags (strip ("But the LORD is faithful.".data))) = _
    decide
  · show "names-of-god" ∈
      dedup_preserve (rawThematicTags (lower (strip ("But the LORD is faithful.".data))))
    decide

/-- Claim C3: detect_thematic_tags emits "negative-command" exactly when the
stripped lowered text starts with one of the NEG_COMMAND_PATTERNS, emits
"positive-command" exactly when it does not start with a negative pattern
but starts with one of POS_COMMAND_PATTERNS, never emits both together,
and for "Thou shalt not kill." emits "negative-command" and not
"positive-command". -/
theorem command_tags_exclusive :
    ∀ (text book : List Char),
      ("negative-command" ∈ detect_thematic_tags text book ↔
        anyStarts NEG_COMMAND_PATTERNS (lower (strip text)) = true) ∧
      ("positive-command" ∈ detect_thematic_tags text book ↔
        (anyStarts NEG_COMMAND_PATTERNS (lower (strip text)) = false ∧
         anyStarts POS_COMMAND_PATTERNS (lower (strip text)) = true)) ∧
      ¬("negative-command" ∈ detect_thematic_tags text book ∧
        "positive-command" ∈ detect_thematic_tags text book) ∧
      ("negative-command" ∈ detect_thematic_tags ("Thou shalt not kill.".data) book ∧
       "positive-command" ∉ detect_thematic_tags ("Thou shalt not kill.".data) book) := by
  intro text book
  refine ⟨?_, ?_, ?_, ?_, ?_⟩
  · simp only [detect_thematic_tags, mem_dedup_preserve, negCmd_mem_raw]
  · simp only [detect_thematic_tags, mem_dedup_preserve, posCmd_mem_raw]
  · simp only [detect_thematic_tags, mem_dedup_preserve, negCmd_mem_raw, posCmd_mem_raw]
    rintro ⟨h1, h2, -⟩
    rw [h1] at h2
    exact Bool.noConfusion h2
  · show "negative-command" ∈
      dedup_preserve (rawThematicTags (lower (strip ("Thou shalt not kill.".data))))
    decide
  · show "positive-command" ∉
      dedup_preserve (rawThematicTags (lower (strip ("Thou shalt not kill.".data))))
    decide

/-- Claim C4: the generic "time" tag appears in the thematic output exactly
when at least one of the six time subcategory tags appears, and the live
TIME_MARKERS set is exactly the union of the six subcategory sets. -/
theorem time_generic_iff_subcategory :
    ∀ (text book : List Char),
      ("time" ∈ detect_thematic_tags text book ↔
        ("time-eschatology" ∈ detect_thematic_tags text book ∨
         "time-units" ∈ detect_thematic_tags text book ∨
         "time-parts-of-day" ∈ detect_thematic_tags text book ∨
         "time-seasons" ∈ detect_thematic_tags text book ∨
         "time-feasts" ∈ detect_thematic_tags text book ∨
         "time-period" ∈ detect_thematic_tags text book)) ∧
      (∀ w : String, w ∈ TIME_MARKERS ↔
        (w ∈ TIME_ESCHATOLOGY ∨ w ∈ TIME_UNITS ∨ w ∈ TIME_PARTS_OF_DAY ∨
         w ∈ TIME_SEASONS ∨ w ∈ TIME_FEASTS ∨ w ∈ TIME_PERIOD_PHRASES)) := by
  intro text book
  constructor
  · simp only [detect_thematic_tags, mem_dedup_preserve, timeTag_mem_raw, timeEsch_mem_raw,
      timeUnits_mem_raw, timePartsOfDay_mem_raw, timeSeasons_mem_raw, timeFeasts_mem_raw,
      timePeriod_mem_raw]
    simp [anyIn, TIME_MARKERS, List.any_append, or_assoc]
  · intro w
    simp [TIME_MARKERS, List.mem_append, or_assoc]

/-- Claim C5: dedup_preserve removes later duplicate occurrences keeping each
element at its first position (it coincides with the recursive
firstOccurrences characterization), and it is idempotent. -/
theorem dedup_preserve_first_and_idem :
    ∀ s : List String,
      dedup_preserve s = firstOccurrences s ∧
      dedup_preserve (dedup_preserve s) = dedup_preserve s := by
  intro s
  constructor
  · rw [dedup_preserve, dedupAux_eq_firstOccurrences]
    have hfil : List.filter (fun x => decide (x ∉ ([] : List String))) s = s :=
      List.filter_eq_self.mpr (by intro a _; simp)
    rw [hfil]
  · show dedupAux (dedup_preserve s) [] = dedup_preserve s
    exact dedupAux_eq_self _ _ (nodup_dedupAux s []) (fun a _ => List.not_mem_nil a)

/-- Claim C6: get_book_ordinal is a bijection from the 66 canonical book
names to the range 1..66: BOOKS_IN_ORDER has 66 distinct entries and the
list of their ordinals is exactly [some 1, ..., some 66], so each book gets
its 1-based canon position, no two books share an ordinal, and every value
in 1..66 is attained. -/
theorem get_book_ordinal_bijection :
    BOOKS_IN_ORDER.length = 66 ∧ BOOKS_IN_ORDER.Nodup ∧
    BOOKS_IN_ORDER.map get_book_ordinal = (List.range 66).map (fun i => some (i + 1)) := by
  refine ⟨by decide, by decide, by decide⟩

/-- Claim C7: every alias key in BOOK_NAME_FIX is normalized by
fix_book_name to a canonical book name, and normalizing the alias agrees
with normalizing the non-aliased canonical form. -/
theorem fix_book_name_aliases :
    ∀ kv ∈ BOOK_NAME_FIX,
      fix_book_name kv.1 ∈ BOOKS_IN_ORDER ∧ fix_book_name kv.1 = fix_book_name kv.2 := by
  decide

/-- Witness for claim C7 at the alias "1Samuel": it is in the alias table,
fix_book_name sends it to a canonical name, and the result agrees with
fix_book_name "1 Samuel". -/
theorem fix_book_name_aliases_witness :
    ("1Samuel", "1 Samuel") ∈ BOOK_NAME_FIX ∧
    (fix_book_name "1Samuel" ∈ BOOKS_IN_ORDER ∧
     fix_book_name "1Samuel" = fix_book_name "1 Samuel") :=
  ⟨by decide, fix_book_name_aliases ("1Samuel", "1 Samuel") (by decide)⟩

/-- Claim C8: word_count counts the maximal runs of word characters (ASCII
letters, digits and the apostrophe) as single words: it equals the number
of positions starting such a maximal run, and on the text
"In the beginning God created the heaven and the earth." it returns 10. -/
theorem word_count_counts_runs :
    (∀ text : List Char, word_count text = runStarts false text) ∧
    word_count ("In the beginning God created the heaven and the earth.".data) = 10 := by
  constructor
  · intro text
    exact wordTokensGo_length text.length text le_rfl
  · decide

/-- Claim C9: both taggers are deterministic functions of the verse text
alone: the book argument never affects the output, and repeated calls with
identical arguments yield identical tag lists. -/
theorem taggers_pure_book_independent :
    ∀ (text b1 b2 : List Char),
      detect_grammar_tags text b1 = detect_grammar_tags text b2 ∧
      detect_thematic_tags text b1 = detect_thematic_tags text b2 ∧
      detect_grammar_tags text b1 = detect_grammar_tags text b1 ∧
      detect_thematic_tags text b1 = detect_thematic_tags text b1 :=
  fun _ _ _ => ⟨rfl, rfl, rfl, rfl⟩

/-- Claim C10: on empty or whitespace-only text both taggers return normally
with the empty tag list: the stripped text is empty, the first-word
extraction yields the empty word, and no keyword matches the empty text. -/
theorem taggers_empty_on_whitespace :
    ∀ (text book : List Char), (∀ c ∈ text, c.isWhitespace) →
      detect_grammar_tags text book = [] ∧ detect_thematic_tags text book = [] := by
  intro text book h
  have h1 : text.dropWhile Char.isWhitespace = [] := List.dropWhile_eq_nil_iff.mpr h
  have hs : strip text = [] := by simp [strip, h1]
  constructor
  · show dedup_preserve (rawGrammarTags (strip text)) = []
    rw [hs]
    decide
  · show dedup_preserve (rawThematicTags (lower (strip text))) = []
    rw [hs]
    decide

/-- Witness for claim C10 at the whitespace-only text of three spaces. -/
theorem taggers_empty_on_whitespace_witness :
    (∀ c ∈ ("   ".data), c.isWhitespace) ∧
    (detect_grammar_tags ("   ".data) ("Mark".data) = [] ∧
     detect_thematic_tags ("   ".data) ("Mark".data) = []) :=
  ⟨by decide, taggers_empty_on_whitespace ("   ".data) ("Mark".data) (by decide)⟩

end KJVNotes
